import Mathlib

/-!
Shallow embedding of the synchronization/authorization core of
`src/App.jsx` (team roster + dashboard hub backed by a document store).

Modelling conventions:
* The remote document store is modelled as an explicit `Store` value
  (players collection keyed by document id, plus the optional singleton
  settings document).  Awaited remote operations are sequential
  state-to-state functions, with read-your-writes semantics for reads
  that follow a completed write by the same client.
* Handlers that issue remote writes return, next to the new state, the
  list of write operations they attempted, so that "no write is issued"
  is a statement about that list.
* JavaScript string/number idioms are embedded explicitly: `parseIntJS`
  models `parseInt(s, 10)` (leading-whitespace trim, optional sign,
  longest digit prefix, `none` for NaN), `jsOr` models `x || dflt` on a
  possibly-missing string.
-/

namespace TeamHub

/-- Models the JavaScript idiom `x || dflt` for a possibly-missing string:
a missing or empty string falls back to the default. -/
def jsOr (x : Option String) (dflt : String) : String :=
  match x with
  | some s => if s = "" then dflt else s
  | none => dflt

/-- Drop leading and trailing whitespace from a character list. -/
def trimChars (cs : List Char) : List Char :=
  ((cs.dropWhile Char.isWhitespace).reverse.dropWhile Char.isWhitespace).reverse

/-- JavaScript `s.trim()`: the string without leading and trailing
whitespace. -/
def jsTrim (s : String) : String := String.mk (trimChars s.data)

/-- JavaScript `s.substring(0, n)`: the first `n` characters. -/
def jsSubstring (s : String) (n : Nat) : String := String.mk (s.data.take n)

/-- A player-profile document as written to the players collection
(fields of the objects built in `src/App.jsx`). -/
structure Player where
  id : String
  userId : String
  name : String
  jerseyNumber : Int
  headshotUrl : String
  role : String
deriving Repr, DecidableEq

/-- The singleton team-settings document (`hub_data`).  Every field is
optional because document-store writes with merge semantics can create
the document with only a subset of the fields present. -/
structure HubDoc where
  opponent : Option String := none
  dateTime : Option String := none
  totalPlayers : Option Nat := none
  captains : Option Nat := none
  jerseyColor : Option String := none
  coachsMessage : Option String := none
  timestamp : Option String := none
  lastEditor : Option String := none
  admin_user_ids : Option (List String) := none
deriving Repr, DecidableEq

/-- Placeholder for the module-load-time clock read
`new Date().toISOString()` in the `INITIAL_HUB_DATA` literal. -/
def moduleLoadTime : String := "1970-01-01T00:00:00.000Z"

/-- The `INITIAL_HUB_DATA` constant of `src/App.jsx` (no admin field). -/
def INITIAL_HUB_DATA : HubDoc :=
  { opponent := some "The Go-Getters (Initial Seed)"
    dateTime := some "Friday, October 4th at 7:00 PM"
    totalPlayers := some 3
    captains := some 1
    jerseyColor := some "Emerald Green"
    coachsMessage := some "Welcome to the unified Team Hub! This message is synced via the cloud. Go to the Roster tab to set your name and number."
    timestamp := some moduleLoadTime }

/-- The remote document store: the players collection (document id paired
with document data) and the optional singleton settings document. -/
structure Store where
  players : List (String × Player)
  hub : Option HubDoc
deriving Repr, DecidableEq

/-- A store holding no player documents and no settings document. -/
def emptyStore : Store := { players := [], hub := none }

/-- One entry of the `MOCK_PLAYERS` seed constant (no id or owner yet). -/
structure MockSeed where
  name : String
  jerseyNumber : Int
  headshotUrl : String
  role : String
deriving Repr, DecidableEq

/-- The `MOCK_PLAYERS` constant of `src/App.jsx`. -/
def MOCK_PLAYERS : List MockSeed :=
  [ { name := "Alex Johnson", jerseyNumber := 23
      headshotUrl := "https://placehold.co/100x100/1e40af/ffffff?text=AJ", role := "Captain" }
  , { name := "Maria Garcia", jerseyNumber := 11
      headshotUrl := "https://placehold.co/100x100/1d4ed8/ffffff?text=MG", role := "Forward" }
  , { name := "Sam Chen", jerseyNumber := 88
      headshotUrl := "https://placehold.co/100x100/3b82f6/ffffff?text=SC", role := "Defense" } ]

/-- The synthetic document id given to the seeded mock player at
position `index`; `rand` stands for the `Math.random()` suffix. -/
def mockDocId (index : Nat) (rand : String) : String :=
  "mock-" ++ toString index ++ "-" ++ rand

/-- The example-profile documents written by the seeding branch:
`{ ...player, userId: mockPlayerId, id: mockPlayerId }`. -/
def seededMockPlayers (rands : Nat → String) : List (String × Player) :=
  MOCK_PLAYERS.enum.map fun im =>
    let mid := mockDocId im.1 (rands im.1)
    (mid, { id := mid, userId := mid, name := im.2.name
            jerseyNumber := im.2.jerseyNumber
            headshotUrl := im.2.headshotUrl, role := im.2.role })

/-- The first-contact profile created for identity `uid` with the
store-assigned document id `fresh` (the `newPlayer` object literal,
using `userId.substring(0, k)` fragments of the identity). -/
def mkNewPlayer (uid fresh : String) : Player :=
  { id := fresh
    userId := uid
    name := "New Recruit " ++ jsSubstring uid 4
    jerseyNumber := 99
    headshotUrl := "https://placehold.co/100x100/60a5fa/ffffff?text=" ++ jsSubstring uid 2
    role := "New Recruit" }

/-- The settings document written by the seeding branch:
`{ ...INITIAL_HUB_DATA, [ADMIN_IDS_FIELD]: [userId] }`. -/
def seededHub (uid : String) : HubDoc :=
  { INITIAL_HUB_DATA with admin_user_ids := some [uid] }

/-- `ensureAdminAndSeed` of `src/App.jsx`, run against the store.
Step order is exactly that of the source: query the players collection
for a document owned by `uid`; if none, write the first-contact profile;
then run `getDocs(playersCollectionRef)` (note: the players collection,
after the profile write above has completed) and, if that result set is
empty, write the seeded settings document and the mock players. -/
def ensureAdminAndSeed (s : Store) (uid fresh : String) (rands : Nat → String) : Store :=
  if s.players.any (fun p => p.2.userId == uid) then s
  else
    let s1 : Store := { s with players := s.players ++ [(fresh, mkNewPlayer uid fresh)] }
    if s1.players.isEmpty then
      { s1 with
        hub := some (seededHub uid)
        players := s1.players ++ seededMockPlayers rands }
    else s1

/-- The roster snapshot delivered by the players-collection
subscription: every document, as `{ id: doc.id, ...doc.data() }`. -/
def rosterSnapshot (s : Store) : List Player :=
  s.players.map fun p => { p.2 with id := p.1 }

/-- The slice of client component state fed by the settings
subscription. -/
structure ClientSettings where
  adminIds : List String
  hubData : HubDoc
deriving Repr, DecidableEq

/-- The settings-subscription callback: on an existing document it
stores `data[ADMIN_IDS_FIELD] || []` and the document; on an absent
document (`docSnapshot.exists()` false, the Absent signal) it falls back
to no admins and the hardcoded `INITIAL_HUB_DATA`. -/
def applyHubSnapshot (snap : Option HubDoc) : ClientSettings :=
  match snap with
  | some d => { adminIds := d.admin_user_ids.getD [], hubData := d }
  | none => { adminIds := [], hubData := INITIAL_HUB_DATA }

/-- The consumer-level admin check `adminIds.includes(userId)`. -/
def isAdmin (adminIds : List String) (uid : String) : Bool :=
  adminIds.contains uid

/-- A partial-field update to a player document, as passed to
`handleUpdateProfile` (only caller-owned fields appear). -/
structure ProfileUpdate where
  name : Option String := none
  jerseyNumber : Option Int := none
  headshotUrl : Option String := none
deriving Repr, DecidableEq

/-- Outcome of `handleUpdateProfile`: either one `updateDoc` write to
the named document, or the warned not-found early return, or the silent
early return when no user id is established (the `!db || !userId`
guard; `db` is taken as initialized in this model). -/
inductive UpdateProfileResult where
  | written (docId : String) (u : ProfileUpdate)
  | notFound
  | unavailable
deriving Repr, DecidableEq

/-- `handleUpdateProfile` of `src/App.jsx`: look up the profile owned by
`uid` in the currently-held roster view; if present, issue one
`updateDoc` on its document; otherwise warn and issue no write. -/
def handleUpdateProfile (view : List Player) (uid : String) (u : ProfileUpdate) :
    UpdateProfileResult :=
  if uid = "" then .unavailable
  else
    match view.find? (fun p => p.userId == uid) with
    | some p => .written p.id u
    | none => .notFound

/-- The remote writes issued by a `handleUpdateProfile` outcome. -/
def profileWrites : UpdateProfileResult → List (String × ProfileUpdate)
  | .written d u => [(d, u)]
  | .notFound => []
  | .unavailable => []

/-- Numeric value of a decimal digit character. -/
def digitVal (c : Char) : Nat := c.toNat - 48

/-- Value of a list of decimal digit characters, most significant first. -/
def digitsVal (ds : List Char) : Nat :=
  ds.foldl (fun acc c => acc * 10 + digitVal c) 0

/-- JavaScript `parseInt(s, 10)`: skip surrounding whitespace, read an
optional sign, then the longest prefix of decimal digits; the result is
`none` (NaN) when no digit is found, and trailing non-digit characters
are ignored. -/
def parseIntJS (s : String) : Option Int :=
  let cs := trimChars s.data
  let signRest : Int × List Char :=
    match cs with
    | '+' :: r => (1, r)
    | '-' :: r => (-1, r)
    | r => (1, r)
  let ds := signRest.2.takeWhile Char.isDigit
  if ds.isEmpty then none else some (signRest.1 * (digitsVal ds : Int))

/-- The acceptance test actually performed by `handleJerseyUpdate`:
`parseInt(jerseyInput, 10)` succeeds and the value satisfies
`newJersey >= 0 && newJersey < 100` (NaN fails both comparisons). -/
def jerseyValid (s : String) : Bool :=
  match parseIntJS s with
  | some n => decide (0 ≤ n ∧ n < 100)
  | none => false

/-- Stated from the specification words "must parse as an integer in
[0, 99]": the whole (whitespace-trimmed) input is an optional sign
followed by decimal digits, and the denoted integer lies in [0, 99].
Kept separate from `jerseyValid`, which embeds the source acceptance
test, so the two can be compared. -/
def specParsesAsIntegerInRange (s : String) : Bool :=
  let cs := trimChars s.data
  let signRest : Int × List Char :=
    match cs with
    | '+' :: r => (1, r)
    | '-' :: r => (-1, r)
    | r => (1, r)
  !signRest.2.isEmpty && signRest.2.all Char.isDigit &&
    decide (0 ≤ signRest.1 * (digitsVal signRest.2 : Int) ∧
            signRest.1 * (digitsVal signRest.2 : Int) ≤ 99)

/-- Result of a profile self-edit handler: the remote writes issued and
the optimistic `selectedPlayer` value after the handler ran. -/
structure SelfEditResult where
  writes : List (String × ProfileUpdate)
  selectedPlayer : Player
deriving Repr, DecidableEq

/-- `handleJerseyUpdate` of `src/App.jsx`: parse the input with
`parseInt`, and when the value is in range issue the profile update and
optimistically set the new jersey number on the selected player;
otherwise warn and change nothing. -/
def handleJerseyUpdate (view : List Player) (uid : String) (selected : Player)
    (jerseyInput : String) : SelfEditResult :=
  match parseIntJS jerseyInput with
  | some newJersey =>
    if 0 ≤ newJersey ∧ newJersey < 100 then
      { writes := profileWrites (handleUpdateProfile view uid { jerseyNumber := some newJersey })
        selectedPlayer := { selected with jerseyNumber := newJersey } }
    else { writes := [], selectedPlayer := selected }
  | none => { writes := [], selectedPlayer := selected }

/-- `handleNameUpdate` of `src/App.jsx`: trim the input and, when the
trimmed length exceeds 1, issue the profile update and optimistically
set the new name; otherwise warn ("Name cannot be empty.") and change
nothing. -/
def handleNameUpdate (view : List Player) (uid : String) (selected : Player)
    (nameInput : String) : SelfEditResult :=
  let newName := jsTrim nameInput
  if newName.length > 1 then
    { writes := profileWrites (handleUpdateProfile view uid { name := some newName })
      selectedPlayer := { selected with name := newName } }
  else { writes := [], selectedPlayer := selected }

/-- Document-store `arrayUnion` on an array-valued field: append the
element unless it is already present. -/
def arrayUnion (l : List String) (id : String) : List String :=
  if id ∈ l then l else l ++ [id]

/-- Document-store `arrayRemove` on an array-valued field: remove every
occurrence of the element. -/
def arrayRemove (l : List String) (id : String) : List String :=
  l.filter fun x => decide (x ≠ id)

/-- A write against the singleton settings document. -/
inductive SettingsWrite where
  | unionAdmins (id : String)
  | removeAdmins (id : String)
  | mergeCoach (msg now uid : String)
deriving Repr, DecidableEq

/-- `handleAddAdmin` of `src/App.jsx`: guarded by `!id` (empty id issues
nothing); otherwise one `updateDoc` with `arrayUnion(id)` on the admin
field.  On an absent document the update fails remotely and the error
is caught, leaving the store unchanged. -/
def handleAddAdmin (hub : Option HubDoc) (id : String) :
    Option HubDoc × List SettingsWrite :=
  if id = "" then (hub, [])
  else
    match hub with
    | none => (none, [.unionAdmins id])
    | some h =>
      (some { h with admin_user_ids := some (arrayUnion (h.admin_user_ids.getD []) id) },
       [.unionAdmins id])

/-- `handleRemoveAdmin` of `src/App.jsx`: guarded by `!id`; otherwise
one `updateDoc` with `arrayRemove(id)` on the admin field, with no
check that `id` differs from the session identity. -/
def handleRemoveAdmin (hub : Option HubDoc) (id : String) :
    Option HubDoc × List SettingsWrite :=
  if id = "" then (hub, [])
  else
    match hub with
    | none => (none, [.removeAdmins id])
    | some h =>
      (some { h with admin_user_ids := some (arrayRemove (h.admin_user_ids.getD []) id) },
       [.removeAdmins id])

/-- `handleSaveMessage` of the coach-message editor: trim the input and,
when non-empty, issue a `setDoc` with merge semantics carrying only the
message, timestamp and last-editor fields (the admin field of an
existing document is preserved; an absent document is created with only
those three fields). -/
def handleSaveMessage (hub : Option HubDoc) (messageInput now uid : String) :
    Option HubDoc × List SettingsWrite :=
  let newMessage := jsTrim messageInput
  if newMessage.length = 0 then (hub, [])
  else
    match hub with
    | some h =>
      (some { h with coachsMessage := some newMessage, timestamp := some now
                     lastEditor := some uid },
       [.mergeCoach newMessage now uid])
    | none =>
      (some { coachsMessage := some newMessage, timestamp := some now
              lastEditor := some uid },
       [.mergeCoach newMessage now uid])

/-- The admin-id list a client reads out of the settings document state
(missing document or missing field both read as the empty list). -/
def adminIdsOf (hub : Option HubDoc) : List String :=
  (hub.bind HubDoc.admin_user_ids).getD []

/-- The operations available against the settings document after
seeding. -/
inductive AdminOp where
  | add (id : String)
  | remove (id : String)
  | saveMsg (msg now uid : String)
deriving Repr, DecidableEq

/-- Apply one settings operation to the settings document state. -/
def applyAdminOp (hub : Option HubDoc) : AdminOp → Option HubDoc
  | .add id => (handleAddAdmin hub id).1
  | .remove id => (handleRemoveAdmin hub id).1
  | .saveMsg m n u => (handleSaveMessage hub m n u).1

/-- Apply a sequence of settings operations (the reachable states from
a starting settings document are exactly the results of such runs). -/
def runAdminOps (hub : Option HubDoc) (ops : List AdminOp) : Option HubDoc :=
  ops.foldl applyAdminOp hub

/-- The admin ids for which the admin panel renders a remove control:
every listed id other than the session identity
(`id !== userId && <button onClick={() => handleRemoveAdmin(id)}>`). -/
def adminPanelRemoveTargets (adminIds : List String) (uid : String) : List String :=
  adminIds.filter fun id => decide (id ≠ uid)

/-- The client authentication state set by the bootstrap effect. -/
structure AuthState where
  isAuthReady : Bool
  userId : Option String
deriving Repr, DecidableEq

/-- The distinguishable execution paths of the authentication bootstrap
effect of `src/App.jsx`:
* `initThrew`: initialization threw synchronously, caught by the
  surrounding try/catch;
* `callbackCompleted uid`: the `onAuthStateChanged` callback ran to
  completion (a session already existed or the awaited sign-in call
  resolved), with `uid` the resulting current-user id (missing or empty
  id falls back to the string "anonymous");
* `signInRejected`: the callback found no user and the awaited sign-in
  call rejected; the rejection propagates out of the async callback,
  past the already-returned try/catch, so no statement after the await
  runs. -/
inductive AuthOutcome where
  | initThrew
  | callbackCompleted (currentUid : Option String)
  | signInRejected
deriving Repr, DecidableEq

/-- The authentication bootstrap effect, as a function from the
execution path taken to the resulting client authentication state
(initial state: not ready, no user id). -/
def authBootstrap : AuthOutcome → AuthState
  | .initThrew => { isAuthReady := true, userId := some "mock-user" }
  | .callbackCompleted uid => { isAuthReady := true, userId := some (jsOr uid "anonymous") }
  | .signInRejected => { isAuthReady := false, userId := none }

/-- A concrete roster-view fixture used by closed witness and
counterexample statements. -/
def demoPlayer : Player :=
  { id := "d1", userId := "u", name := "Pat", jerseyNumber := 7
    headshotUrl := "h", role := "Forward" }

/-- A one-profile roster view owned by identity "u". -/
def demoView : List Player := [demoPlayer]

/-- A list extended with one trailing element is never empty. -/
theorem isEmpty_append_singleton {α : Type} (l : List α) (a : α) :
    (l ++ [a]).isEmpty = false := by
  cases l <;> rfl

/-- The element passed to `arrayUnion` is a member of the result. -/
theorem arrayUnion_mem_self (l : List String) (id : String) :
    id ∈ arrayUnion l id := by
  unfold arrayUnion
  by_cases h : id ∈ l
  · simp [h]
  · simp [h]

/-- `arrayUnion` with an already-present element returns the list
unchanged. -/
theorem arrayUnion_of_mem {l : List String} {id : String} (h : id ∈ l) :
    arrayUnion l id = l := by
  unfold arrayUnion
  exact if_pos h

/-- The first-contact display name is never the empty string. -/
theorem newRecruitName_ne_empty (t : String) : ("New Recruit " ++ t) ≠ "" := by
  intro h
  have hl := congrArg String.length h
  rw [String.length_append] at hl
  have h12 : "New Recruit ".length = 12 := rfl
  have h0 : "".length = 0 := rfl
  rw [h12, h0] at hl
  omega

/-- C1 counterexample: the jersey input "12abc" does not parse as an
integer in [0, 99] in the sense of the specification sentence (the
whole input is not an integer numeral), yet `handleJerseyUpdate`
accepts it: `parseInt` reads the leading prefix 12, one remote write is
issued and the optimistic copy is set to 12.  The claimed acceptance
condition is therefore not equivalent to the implemented one. -/
theorem C1_counterexample :
    specParsesAsIntegerInRange "12abc" = false ∧
    (handleJerseyUpdate demoView "u" demoPlayer "12abc").writes =
      [("d1", { jerseyNumber := some 12 })] ∧
    (handleJerseyUpdate demoView "u" demoPlayer "12abc").selectedPlayer.jerseyNumber = 12 := by
  decide

/-- C1 (amended): for a session with a non-empty identity whose owned
profile is present in the local roster view, a jersey input is accepted
exactly when JavaScript `parseInt` extracts from its leading prefix an
integer in [0, 99]; on acceptance exactly one remote write carrying
that integer is issued and the optimistic selected-player copy reflects
it immediately, and on rejection no write is issued and the selected
player is unchanged. -/
theorem C1_amended_jersey (view : List Player) (uid : String) (selected own : Player)
    (input : String) (huid : uid ≠ "")
    (hown : view.find? (fun p => p.userId == uid) = some own) :
    (jerseyValid input = true →
      ∃ n : Int, parseIntJS input = some n ∧ 0 ≤ n ∧ n < 100 ∧
        (handleJerseyUpdate view uid selected input).writes =
          [(own.id, { jerseyNumber := some n })] ∧
        (handleJerseyUpdate view uid selected input).selectedPlayer =
          { selected with jerseyNumber := n }) ∧
    (jerseyValid input = false →
      (handleJerseyUpdate view uid selected input).writes = [] ∧
      (handleJerseyUpdate view uid selected input).selectedPlayer = selected) := by
  cases hp : parseIntJS input with
  | none =>
    constructor
    · intro hv
      exfalso
      unfold jerseyValid at hv
      rw [hp] at hv
      exact Bool.false_ne_true hv
    · intro _
      simp [handleJerseyUpdate, hp]
  | some n =>
    by_cases hr : 0 ≤ n ∧ n < 100
    · constructor
      · intro _
        refine ⟨n, rfl, hr.1, hr.2, ?_, ?_⟩
        · simp [handleJerseyUpdate, hp, hr, handleUpdateProfile, huid, hown, profileWrites]
        · simp [handleJerseyUpdate, hp, hr]
      · intro hv
        exfalso
        unfold jerseyValid at hv
        rw [hp] at hv
        simp [hr] at hv
    · constructor
      · intro hv
        exfalso
        unfold jerseyValid at hv
        rw [hp] at hv
        simp [hr] at hv
      · intro _
        simp [handleJerseyUpdate, hp, hr]

/-- C1 witness: the amended statement instantiated at the one-profile
demo view, identity "u" and input "42". -/
theorem C1_amended_jersey_witness :
    (jerseyValid "42" = true →
      ∃ n : Int, parseIntJS "42" = some n ∧ 0 ≤ n ∧ n < 100 ∧
        (handleJerseyUpdate demoView "u" demoPlayer "42").writes =
          [(demoPlayer.id, { jerseyNumber := some n })] ∧
        (handleJerseyUpdate demoView "u" demoPlayer "42").selectedPlayer =
          { demoPlayer with jerseyNumber := n }) ∧
    (jerseyValid "42" = false →
      (handleJerseyUpdate demoView "u" demoPlayer "42").writes = [] ∧
      (handleJerseyUpdate demoView "u" demoPlayer "42").selectedPlayer = demoPlayer) :=
  C1_amended_jersey demoView "u" demoPlayer demoPlayer "42" (by decide) (by decide)

/-- C2: the name input "A" is non-empty after trimming, yet
`handleNameUpdate` issues no remote write and leaves the optimistic
copy unchanged, because the guard requires a trimmed length strictly
greater than 1 while its own diagnostic says "Name cannot be empty";
the two-character input "AB" is accepted with one write.  The code
contradicts the claimed (and self-documented) non-emptiness rule. -/
theorem C2_one_char_name_rejected :
    jsTrim "A" ≠ "" ∧
    (handleNameUpdate demoView "u" demoPlayer "A").writes = [] ∧
    (handleNameUpdate demoView "u" demoPlayer "A").selectedPlayer = demoPlayer ∧
    (handleNameUpdate demoView "u" demoPlayer "AB").writes = [("d1", { name := some "AB" })] := by
  decide

/-- C3: the seeding routine never writes the TeamSettings document (and
hence never seeds the example profiles): the emptiness probe
`getDocs(playersCollectionRef)` runs on the players collection after
the first-contact profile write has completed, so the probed result set
always contains that profile.  In particular, on a completely empty
store with identity "u1" the routine creates only the owning profile
and leaves the settings document absent, where the claim says the
first-bootstrapper would write TeamSettings and the example roster. -/
theorem C3_settings_never_seeded :
    (∀ (s : Store) (uid fresh : String) (rands : Nat → String),
        (ensureAdminAndSeed s uid fresh rands).hub = s.hub) ∧
    (ensureAdminAndSeed emptyStore "u1" "f1" (fun _ => "r")).hub = none ∧
    (ensureAdminAndSeed emptyStore "u1" "f1" (fun _ => "r")).players =
      [("f1", mkNewPlayer "u1" "f1")] := by
  refine ⟨?_, by decide, by decide⟩
  intro s uid fresh rands
  by_cases h : s.players.any (fun p => p.2.userId == uid)
  · simp [ensureAdminAndSeed, h]
  · simp [ensureAdminAndSeed, h, isEmpty_append_singleton]

/-- C4 counterexample: starting from the settings document the seeding
branch writes for identity "u" (admin set ["u"]), one application of
the remove-admin operation with id "u" — an available operation —
reaches a state whose admin set is empty.  The claimed invariant that
`adminIds` is never empty in any reachable state after seeding is
false. -/
theorem C4_counterexample :
    adminIdsOf (some (seededHub "u")) = ["u"] ∧
    adminIdsOf (runAdminOps (some (seededHub "u")) [AdminOp.remove "u"]) = [] := by
  decide

/-- C4 (amended): the seeding identity is a member of the initial admin
set written by the seeding branch; the admin set stays non-empty under
add-admin and coach-message edits, and under remove-admin whenever some
member other than the removed id is present — but removing the sole
member empties it (as the counterexample shows). -/
theorem C4_amended_admin_nonempty :
    (∀ uid : String, uid ∈ adminIdsOf (some (seededHub uid))) ∧
    (∀ (hub : Option HubDoc) (id : String), adminIdsOf hub ≠ [] →
        adminIdsOf (applyAdminOp hub (AdminOp.add id)) ≠ []) ∧
    (∀ (hub : Option HubDoc) (m n u : String), adminIdsOf hub ≠ [] →
        adminIdsOf (applyAdminOp hub (AdminOp.saveMsg m n u)) ≠ []) ∧
    (∀ (hub : Option HubDoc) (id : String), (∃ x ∈ adminIdsOf hub, x ≠ id) →
        adminIdsOf (applyAdminOp hub (AdminOp.remove id)) ≠ []) := by
  refine ⟨?_, ?_, ?_, ?_⟩
  · intro uid
    simp [adminIdsOf, seededHub]
  · intro hub id hne
    by_cases hid : id = ""
    · simpa [applyAdminOp, handleAddAdmin, hid] using hne
    · cases hub with
      | none => simp [adminIdsOf] at hne
      | some h =>
        by_cases hm : id ∈ h.admin_user_ids.getD []
        · simpa [applyAdminOp, handleAddAdmin, hid, adminIdsOf,
                 arrayUnion_of_mem hm] using hne
        · simp [applyAdminOp, handleAddAdmin, hid, adminIdsOf, arrayUnion, hm]
  · intro hub m n u hne
    by_cases hmsg : (jsTrim m).length = 0
    · simpa [applyAdminOp, handleSaveMessage, hmsg] using hne
    · cases hub with
      | none => simp [adminIdsOf] at hne
      | some h =>
        simpa [applyAdminOp, handleSaveMessage, hmsg, adminIdsOf] using hne
  · intro hub id hex
    obtain ⟨x, hx, hxid⟩ := hex
    by_cases hid : id = ""
    · simpa [applyAdminOp, handleRemoveAdmin, hid] using List.ne_nil_of_mem hx
    · cases hub with
      | none => simp [adminIdsOf] at hx
      | some h =>
        have hx2 : x ∈ h.admin_user_ids.getD [] := by
          simpa [adminIdsOf] using hx
        have hmem : x ∈ arrayRemove (h.admin_user_ids.getD []) id :=
          List.mem_filter.mpr ⟨hx2, by simp [hxid]⟩
        simpa [applyAdminOp, handleRemoveAdmin, hid, adminIdsOf] using
          List.ne_nil_of_mem hmem

/-- C4 witness: the amended statement applied at the seeded document
for identity "u": the seeding identity is in the initial set, and the
set stays non-empty after adding "v", after a coach-message edit, and
after removing "v" (a member other than the sole admin would remain). -/
theorem C4_amended_admin_nonempty_witness :
    ("u" ∈ adminIdsOf (some (seededHub "u"))) ∧
    adminIdsOf (applyAdminOp (some (seededHub "u")) (AdminOp.add "v")) ≠ [] ∧
    adminIdsOf (applyAdminOp (some (seededHub "u")) (AdminOp.saveMsg "hi" "t1" "u")) ≠ [] ∧
    adminIdsOf (applyAdminOp (some (seededHub "u")) (AdminOp.remove "v")) ≠ [] :=
  ⟨C4_amended_admin_nonempty.1 "u",
   C4_amended_admin_nonempty.2.1 (some (seededHub "u")) "v" (by decide),
   C4_amended_admin_nonempty.2.2.1 (some (seededHub "u")) "hi" "t1" "u" (by decide),
   C4_amended_admin_nonempty.2.2.2 (some (seededHub "u")) "v" ⟨"u", by decide, by decide⟩⟩

/-- C5: the add-admin operation is idempotent — applying it twice with
the same id yields the same settings-document state as applying it
once — and adding an id already present in the admin set leaves the
document unchanged (set-union semantics of `arrayUnion`). -/
theorem C5_addAdmin_idempotent (hub : Option HubDoc) (id : String) :
    (handleAddAdmin (handleAddAdmin hub id).1 id).1 = (handleAddAdmin hub id).1 ∧
    (id ∈ adminIdsOf hub → (handleAddAdmin hub id).1 = hub) := by
  by_cases hid : id = ""
  · simp [handleAddAdmin, hid]
  · cases hub with
    | none => simp [handleAddAdmin, hid, adminIdsOf]
    | some h =>
      constructor
      · have hu : arrayUnion (arrayUnion (h.admin_user_ids.getD []) id) id
            = arrayUnion (h.admin_user_ids.getD []) id :=
          arrayUnion_of_mem (arrayUnion_mem_self _ _)
        simp [handleAddAdmin, hid, hu]
      · intro hmem
        obtain ⟨l, heq⟩ : ∃ l, h.admin_user_ids = some l := by
          cases hadm : h.admin_user_ids with
          | none => simp [adminIdsOf, hadm] at hmem
          | some l => exact ⟨l, rfl⟩
        have hm : id ∈ l := by simpa [adminIdsOf, heq] using hmem
        simp [handleAddAdmin, hid, heq, arrayUnion_of_mem hm]
        rw [← heq]

/-- C5 witness: idempotence at the seeded document for "u" with the new
id "v", and the no-op of re-adding the already-present id "u". -/
theorem C5_addAdmin_idempotent_witness :
    (handleAddAdmin (handleAddAdmin (some (seededHub "u")) "v").1 "v").1 =
      (handleAddAdmin (some (seededHub "u")) "v").1 ∧
    (handleAddAdmin (some (seededHub "u")) "u").1 = some (seededHub "u") :=
  ⟨(C5_addAdmin_idempotent (some (seededHub "u")) "v").1,
   (C5_addAdmin_idempotent (some (seededHub "u")) "u").2 (by decide)⟩

/-- C6: when the singleton settings document is absent, the settings
subscription callback falls back to the hardcoded default projection
(`INITIAL_HUB_DATA` and an empty admin list), and the consumer-level
admin check evaluates to false for every identity — absence grants no
privilege. -/
theorem C6_absent_settings (uid : String) :
    applyHubSnapshot none = { adminIds := [], hubData := INITIAL_HUB_DATA } ∧
    isAdmin (applyHubSnapshot none).adminIds uid = false :=
  ⟨rfl, rfl⟩

/-- C7: when no profile owned by the requesting (established, hence
non-empty) identity is present in the currently-held roster view,
`handleUpdateProfile` reports the not-found condition and issues no
remote write. -/
theorem C7_updateOwnProfile_notFound (view : List Player) (uid : String) (u : ProfileUpdate)
    (huid : uid ≠ "") (habs : ∀ p ∈ view, p.userId ≠ uid) :
    handleUpdateProfile view uid u = UpdateProfileResult.notFound ∧
    profileWrites (handleUpdateProfile view uid u) = [] := by
  have hfind : view.find? (fun p => p.userId == uid) = none := by
    rw [List.find?_eq_none]
    intro p hp
    simpa using habs p hp
  constructor
  · simp [handleUpdateProfile, huid, hfind]
  · simp [handleUpdateProfile, huid, hfind, profileWrites]

/-- C7 witness: the not-found report at the demo view (owned by "u")
for the foreign identity "w". -/
theorem C7_updateOwnProfile_notFound_witness :
    handleUpdateProfile demoView "w" { name := some "X" } = UpdateProfileResult.notFound ∧
    profileWrites (handleUpdateProfile demoView "w" { name := some "X" }) = [] :=
  C7_updateOwnProfile_notFound demoView "w" { name := some "X" } (by decide) (by decide)

/-- C8 counterexample: on the execution path where the auth-state
callback finds no session and the awaited sign-in call rejects (the
Identity Provider is unreachable or rejects all session strategies),
the rejection escapes the async callback — the surrounding try/catch
has already returned — so neither the ready flag nor any sentinel
identity is ever set.  The claim that every execution path reaches the
terminal ready state is false. -/
theorem C8_counterexample :
    (authBootstrap AuthOutcome.signInRejected).isAuthReady = false ∧
    (authBootstrap AuthOutcome.signInRejected).userId = none := by
  decide

/-- C8 (amended): the bootstrap fails closed only on the synchronous
paths: when initialization throws, the catch block reaches the ready
state with the sentinel identity "mock-user", and whenever the
auth-state callback runs to completion the system reaches the ready
state with the session id (empty or missing id degrading to
"anonymous"); but a rejected sign-in inside the callback leaves the
system unready. -/
theorem C8_amended_fail_closed (uid : Option String) :
    (authBootstrap AuthOutcome.initThrew).isAuthReady = true ∧
    (authBootstrap AuthOutcome.initThrew).userId = some "mock-user" ∧
    (authBootstrap (AuthOutcome.callbackCompleted uid)).isAuthReady = true ∧
    (authBootstrap (AuthOutcome.callbackCompleted uid)).userId =
      some (jsOr uid "anonymous") :=
  ⟨rfl, rfl, rfl, rfl⟩

/-- C9: whenever the roster holds no profile owned by the identity, the
first-contact branch creates one, and the roster snapshot re-observed
after the routine contains a profile with jersey number 99, the
non-empty display name "New Recruit " followed by the first four
characters of the identity, the generated placeholder avatar reference,
and the creating identity as owner. -/
theorem C9_first_contact_profile (s : Store) (uid fresh : String) (rands : Nat → String)
    (habs : ∀ p ∈ s.players, p.2.userId ≠ uid) :
    ∃ p ∈ rosterSnapshot (ensureAdminAndSeed s uid fresh rands),
      p.jerseyNumber = 99 ∧
      p.name = "New Recruit " ++ jsSubstring uid 4 ∧
      p.name ≠ "" ∧
      p.userId = uid ∧
      p.headshotUrl = "https://placehold.co/100x100/60a5fa/ffffff?text=" ++ jsSubstring uid 2 := by
  have hany : s.players.any (fun p => p.2.userId == uid) = false := by
    rw [List.any_eq_false]
    intro p hp
    simpa using habs p hp
  have hresult : (ensureAdminAndSeed s uid fresh rands).players
      = s.players ++ [(fresh, mkNewPlayer uid fresh)] := by
    simp [ensureAdminAndSeed, hany, isEmpty_append_singleton]
  refine ⟨mkNewPlayer uid fresh, ?_, rfl, rfl, newRecruitName_ne_empty _, rfl, rfl⟩
  unfold rosterSnapshot
  rw [hresult]
  refine List.mem_map.mpr ⟨(fresh, mkNewPlayer uid fresh), ?_, rfl⟩
  exact List.mem_append_right _ (List.mem_singleton.mpr rfl)

/-- C9 witness: first contact of identity "user-abc" against the empty
store. -/
theorem C9_first_contact_profile_witness :
    ∃ p ∈ rosterSnapshot (ensureAdminAndSeed emptyStore "user-abc" "f1" (fun _ => "r")),
      p.jerseyNumber = 99 ∧
      p.name = "New Recruit " ++ jsSubstring "user-abc" 4 ∧
      p.name ≠ "" ∧
      p.userId = "user-abc" ∧
      p.headshotUrl =
        "https://placehold.co/100x100/60a5fa/ffffff?text=" ++ jsSubstring "user-abc" 2 :=
  C9_first_contact_profile emptyStore "user-abc" "f1" (fun _ => "r") (by decide)

/-- C10 counterexample: the remove-admin handler is guarded by the
falsy check on its id argument, so a direct invocation with the empty
id issues no write at all — the claim that a direct invocation with any
id issues the set-difference write fails at the empty id. -/
theorem C10_counterexample :
    (handleRemoveAdmin (some (seededHub "u")) "").2 = [] ∧
    (handleRemoveAdmin (some (seededHub "u")) "").1 = some (seededHub "u") := by
  decide

/-- C10 (amended): the admin panel renders a remove control only for
listed ids different from the session identity, so the session's own id
is never among the ids the panel can pass to the remove-admin handler;
the handler itself performs no self-removal check, so a direct
invocation with any non-empty id — the session's own id included —
issues the set-difference write. -/
theorem C10_remove_control (adminIds : List String) (uid : String)
    (hub : Option HubDoc) (id : String) (hid : id ≠ "") :
    uid ∉ adminPanelRemoveTargets adminIds uid ∧
    (handleRemoveAdmin hub id).2 = [SettingsWrite.removeAdmins id] := by
  constructor
  · intro hmem
    have hprop := (List.mem_filter.mp hmem).2
    simp at hprop
  · unfold handleRemoveAdmin
    rw [if_neg hid]
    cases hub <;> rfl

/-- C10 witness: with admin list ["u", "v"] and session identity "u",
the panel offers no remove control for "u", while a direct invocation
of the handler with the session's own id "u" issues the set-difference
write. -/
theorem C10_remove_control_witness :
    "u" ∉ adminPanelRemoveTargets ["u", "v"] "u" ∧
    (handleRemoveAdmin (some (seededHub "u")) "u").2 =
      [SettingsWrite.removeAdmins "u"] :=
  C10_remove_control ["u", "v"] "u" (some (seededHub "u")) "u" (by decide)

end TeamHub
